import Mathlib

/-!
# Verification of aiomanhole's core behaviour

Shallow embedding of the aiomanhole repository (an asyncio "manhole"
interactive interpreter server) and proofs of its specified properties.

The embedding follows the source files:
* `aiomanhole/__init__.py` — the current package: `StatefulCommandCompiler`,
  `InteractiveInterpreter`, `ThreadedInteractiveInterpreter`,
  `InterpreterFactory`, `start_manhole`;
* `src/aiomanhole.py` — the older module kept in the repository, whose
  `handle_one_command` binds the last result under `_`.

The underlying Python `codeop.CommandCompiler` (standard library, not part
of this repository) is abstracted as a function
`Compiler : String → Except Unit (Option Nat)`:
* `.ok (some c)` — the accumulated source compiled to a code object `c`;
* `.ok none` — the source is a syntactically incomplete command (more
  input is needed);
* `.error ()` — the source is malformed (a `SyntaxError` is raised).
Theorems about the buffering logic quantify over this abstract compiler,
with hypotheses expressing what `codeop` returns on the relevant inputs.
-/

namespace Aiomanhole

/-- Abstraction of Python's `codeop.CommandCompiler.__call__` on the decoded
buffer text: `.ok (some c)` is a compiled code object, `.ok none` means
"incomplete, need more input", `.error ()` means a `SyntaxError` was raised. -/
abbrev Compiler := String → Except Unit (Option Nat)

/-- `StatefulCommandCompiler.is_partial_command`:
`bool(self.buf.getvalue())` — true iff the buffer holds some bytes.
The buffer state is the accumulated string `buf`. -/
def isPartialCommand (buf : String) : Bool :=
  buf ≠ ""

/-- `StatefulCommandCompiler.__call__` from `aiomanhole/__init__.py`:
if the buffer already holds a partial command, append a newline separator;
append the new source; compile the whole buffer text; if a code object is
produced, reset (clear) the buffer.  Returns the compile outcome together
with the buffer state afterwards.  On a `SyntaxError` the exception
propagates to the caller and the buffer keeps the appended text. -/
def feed (C : Compiler) (buf : String) (source : String) :
    Except Unit (Option Nat) × String :=
  let buf' := (if isPartialCommand buf then buf ++ "\n" else buf) ++ source
  match C buf' with
  | Except.error () => (Except.error (), buf')
  | Except.ok none => (Except.ok none, buf')
  | Except.ok (some c) => (Except.ok (some c), "")

/-- Feed a list of lines one after another, collecting each call's outcome
and the final buffer state. -/
def feedAll (C : Compiler) (buf : String) : List String →
    List (Except Unit (Option Nat)) × String
  | [] => ([], buf)
  | l :: ls =>
    let r := feed C buf l
    let rest := feedAll C r.2 ls
    (r.1 :: rest.1, rest.2)

/-- The buffer text after lines `ls` have been appended to a nonempty
buffer `pre`, each with the `"\n"` separator written by `__call__`. -/
def extendBuf (pre : String) (ls : List String) : String :=
  ls.foldl (fun b l => b ++ "\n" ++ l) pre

theorem extendBuf_nil (pre : String) : extendBuf pre [] = pre := rfl

theorem extendBuf_cons (pre l : String) (ls : List String) :
    extendBuf pre (l :: ls) = extendBuf (pre ++ "\n" ++ l) ls := rfl

theorem String.length_append_assoc (a b c : String) :
    (a ++ b ++ c).length = a.length + b.length + c.length := by
  simp [String.length_append]

theorem append_newline_ne_empty (b l : String) : b ++ "\n" ++ l ≠ "" := by
  intro h
  have hlen := congrArg String.length h
  rw [String.length_append_assoc] at hlen
  have h1 : ("\n" : String).length = 1 := rfl
  have h2 : ("" : String).length = 0 := rfl
  rw [h1, h2] at hlen
  omega

theorem extendBuf_ne_empty (pre : String) (ls : List String) (h : pre ≠ "") :
    extendBuf pre ls ≠ "" := by
  induction ls generalizing pre with
  | nil => exact h
  | cons l ls ih =>
    rw [extendBuf_cons]
    exact ih _ (append_newline_ne_empty pre l)

/-- Feeding a single line into an empty buffer: the buffer text compiled is
exactly that line. -/
theorem feed_empty (C : Compiler) (source : String) :
    feed C "" source =
      (match C source with
       | Except.error () => (Except.error (), source)
       | Except.ok none => (Except.ok none, source)
       | Except.ok (some c) => (Except.ok (some c), "")) := by
  unfold feed isPartialCommand
  simp

/-! ### C1 -/

/-- **C1.** For every syntactically complete single-line input (one the
underlying compiler turns into a code object), `feed` on a fresh (empty)
buffer returns the compiled unit on that first call, and immediately
afterward the buffer is empty, so `is_partial_command` reports `false`. -/
theorem feed_complete_single_line (C : Compiler) (source : String) (c : Nat)
    (h : C source = Except.ok (some c)) :
    (feed C "" source).1 = Except.ok (some c) ∧
      isPartialCommand (feed C "" source).2 = false := by
  rw [feed_empty, h]
  exact ⟨rfl, rfl⟩

/-- A concrete stand-in for `codeop.CommandCompiler` used to instantiate
the buffering theorems: it understands a handful of fixed inputs. -/
def demoCompile : Compiler := fun s =>
  if s = "x = 5" then Except.ok (some 1)
  else if s = "if True:" then Except.ok none
  else if s = "if True:\n    pass" then Except.ok none
  else if s = "if True:\n    pass\n" then Except.ok (some 2)
  else Except.error ()

theorem feed_complete_single_line_witness :
    demoCompile "x = 5" = Except.ok (some 1) ∧
      ((feed demoCompile "" "x = 5").1 = Except.ok (some 1) ∧
        isPartialCommand (feed demoCompile "" "x = 5").2 = false) :=
  ⟨rfl, feed_complete_single_line demoCompile "x = 5" 1 rfl⟩

/-! ### C2 -/

theorem feed_partial_step (C : Compiler) (pre l : String) (hp : pre ≠ "")
    (h : C (pre ++ "\n" ++ l) = Except.ok none) :
    feed C pre l = (Except.ok none, pre ++ "\n" ++ l) := by
  simp [feed, isPartialCommand, hp, h]

theorem extendBuf_singleton (pre l : String) :
    extendBuf pre [l] = pre ++ "\n" ++ l := rfl

/-- While the underlying compiler keeps classifying every accumulated
text as incomplete, every `feed` returns `PARTIAL` (`.ok none`) and the
buffer keeps growing, holding all the text fed so far (nothing is
discarded). -/
theorem feedAll_all_partial (C : Compiler) :
    ∀ (ls : List String) (pre : String), pre ≠ "" →
    (∀ q t, ls = q ++ t → q ≠ [] → C (extendBuf pre q) = Except.ok none) →
    feedAll C pre ls =
      (List.replicate ls.length (Except.ok none), extendBuf pre ls) := by
  intro ls
  induction ls with
  | nil =>
    intro pre _ _
    simp [feedAll, extendBuf_nil]
  | cons l ls ih =>
    intro pre hp h
    have h1 : C (pre ++ "\n" ++ l) = Except.ok none := by
      have := h [l] ls rfl (by simp)
      rwa [extendBuf_singleton] at this
    have hstep : feed C pre l = (Except.ok none, pre ++ "\n" ++ l) :=
      feed_partial_step C pre l hp h1
    have hrec := ih (pre ++ "\n" ++ l) (append_newline_ne_empty pre l)
      (fun q t hqt hq => by
        have hsplit : l :: ls = (l :: q) ++ t := by rw [hqt]; rfl
        have := h (l :: q) t hsplit (List.cons_ne_nil l q)
        rwa [extendBuf_cons] at this)
    simp [feedAll, hstep, hrec, extendBuf_cons, List.replicate_succ]

/-- **C2.** Block-header input: while the underlying compiler classifies
the header and every further accumulated body text as incomplete, each
`feed` of a header or body line returns `PARTIAL` (`.ok none`) and the
buffer retains all the fed text (never silently discarded); only feeding
the explicit blank terminating line — after which the compiler accepts the
text — makes `feed` return the compiled unit and clear the buffer. -/
theorem feed_block_requires_blank_line (C : Compiler) (hdr : String)
    (body : List String) (c : Nat)
    (hne : hdr ≠ "")
    (hhdr : C hdr = Except.ok none)
    (hbody : ∀ q t, body = q ++ t → q ≠ [] →
      C (extendBuf hdr q) = Except.ok none)
    (hblank : C (extendBuf hdr body ++ "\n") = Except.ok (some c)) :
    feedAll C "" (hdr :: body) =
      (List.replicate (body.length + 1) (Except.ok none), extendBuf hdr body) ∧
    feed C (extendBuf hdr body) "" = (Except.ok (some c), "") := by
  constructor
  · have hfirst : feed C "" hdr = (Except.ok none, hdr) := by
      rw [feed_empty, hhdr]
    have hrest := feedAll_all_partial C body hdr hne hbody
    simp [feedAll, hfirst, hrest, List.replicate_succ]
  · have hbuf : extendBuf hdr body ≠ "" := extendBuf_ne_empty hdr body hne
    simp [feed, isPartialCommand, hbuf, hblank]

theorem feed_block_requires_blank_line_witness :
    ("if True:" ≠ "" ∧
     demoCompile "if True:" = Except.ok none ∧
     demoCompile (extendBuf "if True:" ["    pass"] ++ "\n") =
       Except.ok (some 2)) ∧
    (feedAll demoCompile "" ["if True:", "    pass"] =
       (List.replicate 2 (Except.ok none), extendBuf "if True:" ["    pass"]) ∧
     feed demoCompile (extendBuf "if True:" ["    pass"]) "" =
       (Except.ok (some 2), "")) := by
  refine ⟨⟨by decide, rfl, rfl⟩, ?_⟩
  have hbody : ∀ q t, ["    pass"] = q ++ t → q ≠ [] →
      demoCompile (extendBuf "if True:" q) = Except.ok none := by
    intro q t hqt hq
    match q, t, hqt with
    | [], _, _ => exact absurd rfl hq
    | [a], t, hqt =>
      have ha : a = "    pass" := by
        have := congrArg (fun xs => List.head? xs) hqt
        simpa using this.symm
      rw [ha]
      rfl
    | a :: b :: q', t, hqt =>
      exact absurd (congrArg List.length hqt) (by simp)
  exact feed_block_requires_blank_line demoCompile "if True:" ["    pass"] 2
    (by decide) rfl hbody rfl

/-! ### Session-level embedding -/

/-- A Python runtime value, abstracted by its `repr` text (the only use the
interpreter makes of a result value when writing it back is
`'{!r}\n'.format(value)`). -/
structure PyObj where
  reprStr : String
deriving DecidableEq

/-- Observable effects a session performs, in order. `writeTraceback`
stands for writing `traceback.format_exc()` (whose exact text is
runtime-dependent); `bindLast v` stands for `namespace['_'] = value`. -/
inductive Effect where
  | write (s : String)
  | writeTraceback
  | bindLast (v : Option PyObj)
  | readLine
deriving DecidableEq

/-- `line.rstrip(b'\n')` — drop every trailing newline byte. -/
def rstripNewlines (s : String) : String :=
  String.mk ((s.data.reverse.dropWhile (fun ch => ch = '\n')).reverse)

/-- Outcome of `InteractiveInterpreter.read_command`. -/
inductive ReadResult where
  | connReset
  | needMore
  | compiled (c : Nat)
  | syntaxFailure
deriving DecidableEq

/-- `InteractiveInterpreter.read_command` from `aiomanhole/__init__.py`,
together with the `SyntaxError` handling it performs: read a line (given
here as `line`); an empty read raises `ConnectionResetError`; otherwise
feed the line, stripped of trailing newlines, to the compiler.  If the
compiler raises `SyntaxError`, `send_exception` runs: it resets the
compiler's buffer and writes the formatted traceback to the client.
Returns the outcome, the buffer state afterwards, and the writes made. -/
def readCommand (C : Compiler) (buf : String) (line : String) :
    ReadResult × String × List Effect :=
  if line = "" then (ReadResult.connReset, buf, [])
  else
    match feed C buf (rstripNewlines line) with
    | (Except.error (), _) => (ReadResult.syntaxFailure, "", [Effect.writeTraceback])
    | (Except.ok none, buf') => (ReadResult.needMore, buf', [])
    | (Except.ok (some c), buf') => (ReadResult.compiled c, buf', [])

/-! ### C3 -/

/-- **C3.** When the accumulated buffer text (existing buffer, separator,
and the newly fed line) is malformed beyond merely incomplete — the
underlying compiler raises `SyntaxError` on it — the session reports a
syntax failure and the buffer is cleared, so a subsequent `feed` behaves
exactly as on a freshly empty buffer: the malformed text never leaks into
the next command. -/
theorem syntax_failure_clears_buffer (C : Compiler) (buf line : String)
    (hline : line ≠ "")
    (herr : C ((if isPartialCommand buf then buf ++ "\n" else buf) ++
        rstripNewlines line) = Except.error ()) :
    (readCommand C buf line).1 = ReadResult.syntaxFailure ∧
    (readCommand C buf line).2.1 = "" ∧
    ∀ line2, readCommand C (readCommand C buf line).2.1 line2 =
      readCommand C "" line2 := by
  have h1 : readCommand C buf line =
      (ReadResult.syntaxFailure, "", [Effect.writeTraceback]) := by
    simp [readCommand, hline, feed, herr]
  exact ⟨by rw [h1], by rw [h1], fun line2 => by rw [h1]⟩

theorem syntax_failure_clears_buffer_witness :
    ("5 +\n" ≠ "") ∧
    ((readCommand demoCompile "" "5 +\n").1 = ReadResult.syntaxFailure ∧
     (readCommand demoCompile "" "5 +\n").2.1 = "" ∧
     readCommand demoCompile (readCommand demoCompile "" "5 +\n").2.1 "x = 5" =
       readCommand demoCompile "" "x = 5") :=
  ⟨by decide, by
    have h := syntax_failure_clears_buffer demoCompile "" "5 +\n" (by decide) rfl
    exact ⟨h.1, h.2.1, h.2.2 "x = 5"⟩⟩

/-! ### C8 -/

/-- `InteractiveInterpreter.write_prompt`: write `sys.ps2` when the
compiler holds a partial command, else `sys.ps1`. -/
def writePrompt (ps1 ps2 : String) (buf : String) : String :=
  if isPartialCommand buf then ps2 else ps1

/-- The default prompts `_setup_prompts` installs when `sys.ps1`/`sys.ps2`
are absent. -/
def defaultPs1 : String := ">>> "

def defaultPs2 : String := "... "

/-- The start of each `handle_one_command` iteration: `write_prompt()` then
`read_command()` — the prompt write always precedes the read. -/
def handleOneCommandStart (ps1 ps2 : String) (buf : String) : List Effect :=
  [Effect.write (writePrompt ps1 ps2 buf), Effect.readLine]

/-- **C8.** Before every read, the session writes exactly one prompt, and
`is_partial_command` is the predicate selecting it: the continuation
prompt is written iff the buffer holds partial content, and the primary
prompt is written iff it does not. -/
theorem prompt_selected_by_partial_flag (ps1 ps2 buf : String)
    (hne : ps1 ≠ ps2) :
    handleOneCommandStart ps1 ps2 buf =
      [Effect.write (writePrompt ps1 ps2 buf), Effect.readLine] ∧
    (writePrompt ps1 ps2 buf = ps2 ↔ isPartialCommand buf = true) ∧
    (writePrompt ps1 ps2 buf = ps1 ↔ isPartialCommand buf = false) := by
  refine ⟨rfl, ?_, ?_⟩ <;>
    cases hb : isPartialCommand buf <;>
      simp [writePrompt, hb, hne, Ne.symm hne]

theorem prompt_selected_by_partial_flag_witness :
    (defaultPs1 ≠ defaultPs2) ∧
    ((writePrompt defaultPs1 defaultPs2 "x = " = defaultPs2 ↔
        isPartialCommand "x = " = true) ∧
     (writePrompt defaultPs1 defaultPs2 "x = " = defaultPs1 ↔
        isPartialCommand "x = " = false)) :=
  ⟨by decide,
    (prompt_selected_by_partial_flag defaultPs1 defaultPs2 "x = "
      (by decide)).2⟩

/-! ### C9 -/

/-- The startup guard of `start_manhole`:
`if (port, path) == (None, None): raise ValueError(...)`. -/
def startManholeCheck (port : Option Nat) (path : Option String) :
    Except String Unit :=
  if port = none ∧ path = none then
    Except.error "At least one of port or path must be given"
  else
    Except.ok ()

/-- **C9.** `start_manhole` raises from its startup guard if and only if
neither a TCP port nor a domain-socket path is configured; with at least
one of them given, the guard does not raise. -/
theorem start_manhole_requires_endpoint (port : Option Nat)
    (path : Option String) :
    (∃ e, startManholeCheck port path = Except.error e) ↔
      (port = none ∧ path = none) := by
  by_cases h : port = none ∧ path = none <;>
    simp [startManholeCheck, h]

/-! ### C10 -/

/-- The possible shapes of the `banner` argument, as `get_banner`
distinguishes them: a `bytes` object, a `str`, `None`, or any other
object. -/
inductive BannerArg where
  | bytes (b : List UInt8)
  | str (s : String)
  | noneArg
  | other

/-- `InteractiveInterpreter.get_banner`: `bytes` pass through unchanged,
`str` is UTF-8 encoded, `None` becomes `b''`, anything else raises
`ValueError`. -/
def getBanner : BannerArg → Except String (List UInt8)
  | BannerArg.bytes b => Except.ok b
  | BannerArg.str s => Except.ok s.toUTF8.toList
  | BannerArg.noneArg => Except.ok []
  | BannerArg.other => Except.error "ValueError"

/-- `__call__` on connect: `if self.banner:` — banner bytes are written
only when nonempty, so an empty banner writes nothing before the first
prompt. -/
def bannerConnectWrites (banner : List UInt8) : List (List UInt8) :=
  if banner.isEmpty then [] else [banner]

/-- **C10.** Banner normalization accepts exactly three shapes: `bytes`
unchanged, `str` UTF-8 encoded, `None` mapped to the empty byte string
(so nothing is written before the first prompt); any other type raises
`ValueError`. -/
theorem banner_normalization :
    (∀ b, getBanner (BannerArg.bytes b) = Except.ok b) ∧
    (∀ s, getBanner (BannerArg.str s) = Except.ok s.toUTF8.toList) ∧
    getBanner BannerArg.noneArg = Except.ok [] ∧
    bannerConnectWrites [] = [] ∧
    (∃ msg, getBanner BannerArg.other = Except.error msg) :=
  ⟨fun _ => rfl, fun _ => rfl, rfl, rfl, ⟨"ValueError", rfl⟩⟩

/-! ### C4 -/

/-- The response handling of `InteractiveInterpreter.handle_one_command`
from `src/aiomanhole.py` (lines 105–118), applied to the result of
`attempt_exec`: on an exception, `send_exception` writes the traceback
(and resets the compiler); on success, write `'{!r}\n'.format(value)` when
the value is not `None`, then bind `namespace['_'] = value`, then write
the captured stdout when nonempty. -/
def runCommandResponseOld (execResult : Except Unit (Option PyObj × String)) :
    List Effect :=
  match execResult with
  | Except.error () => [Effect.writeTraceback]
  | Except.ok (value, stdout) =>
    ((match value with
      | some v => [Effect.write (v.reprStr ++ "\n")]
      | none => []) ++ [Effect.bindLast value]) ++
    (if stdout = "" then [] else [Effect.write stdout])

/-- The prompt the `src/aiomanhole.py` loop writes at the top of its next
iteration: `'... '` when the compiler holds a partial command, else
`'>>> '`. -/
def promptOld (buf : String) : String :=
  if isPartialCommand buf then "... " else ">>> "

/-- One command's response followed by the next iteration's prompt, with
`bufAfter` the compiler buffer state after the command. -/
def responseThenPromptOld (execResult : Except Unit (Option PyObj × String))
    (bufAfter : String) : List Effect :=
  runCommandResponseOld execResult ++ [Effect.write (promptOld bufAfter)]

/-- **C4.** After a successful execution whose result is not the no-value
sentinel (`None`), the session writes the result's `repr` followed by a
line break, then binds the result under the reserved last-result name
`_`, then writes the captured stdout — in that order, all before the next
prompt (here the primary prompt, the buffer having been cleared by the
successful compile). -/
theorem success_response_order (v : PyObj) (out : String) (hout : out ≠ "") :
    responseThenPromptOld (Except.ok (some v, out)) "" =
      [Effect.write (v.reprStr ++ "\n"), Effect.bindLast (some v),
       Effect.write out, Effect.write ">>> "] := by
  simp [responseThenPromptOld, runCommandResponseOld, promptOld,
    isPartialCommand, hout]

theorem success_response_order_witness :
    ("hello" ≠ "") ∧
    responseThenPromptOld (Except.ok (some ⟨"5"⟩, "hello")) "" =
      [Effect.write ("5" ++ "\n"), Effect.bindLast (some ⟨"5"⟩),
       Effect.write "hello", Effect.write ">>> "] :=
  ⟨by decide, success_response_order ⟨"5"⟩ "hello" (by decide)⟩

/-! ### C5 -/

/-- The ways `attempt_exec` can fail: `asyncio.TimeoutError` raised by
`wait_for`, or an exception raised by the executed code itself. -/
inductive ExecFailure where
  | timeoutError
  | userException
deriving DecidableEq

/-- `ThreadedInteractiveInterpreter._real_exec`: the code object is
submitted to the executor (a worker whose behaviour is abstracted by how
long it runs, `duration`, and what it produces, `workerResult`); when
`self.command_timeout` is truthy the await is wrapped in
`asyncio.wait_for`, which raises `TimeoutError` when the timeout elapses
before the worker finishes. -/
def threadedRealExec (commandTimeout duration : Nat)
    (workerResult : Except Unit (Option PyObj)) :
    Except ExecFailure (Option PyObj) :=
  if commandTimeout ≠ 0 ∧ commandTimeout < duration then
    Except.error ExecFailure.timeoutError
  else
    match workerResult with
    | Except.ok v => Except.ok v
    | Except.error () => Except.error ExecFailure.userException

/-- `attempt_exec` in threaded mode: redirect stdout, run `_real_exec`,
and return the value together with the captured output; if `_real_exec`
raises, the exception propagates and no value/output pair is produced. -/
def threadedAttemptExec (commandTimeout duration : Nat)
    (workerResult : Except Unit (Option PyObj)) (workerStdout : String) :
    Except ExecFailure (Option PyObj × String) :=
  match threadedRealExec commandTimeout duration workerResult with
  | Except.error e => Except.error e
  | Except.ok v => Except.ok (v, workerStdout)

/-- `InteractiveInterpreter.send_output` from `aiomanhole/__init__.py`:
write the value's `repr` plus newline when not `None`, then the captured
stdout when nonempty. -/
def sendOutput (value : Option PyObj) (stdout : String) : List Effect :=
  (match value with
   | some v => [Effect.write (v.reprStr ++ "\n")]
   | none => []) ++
  (if stdout = "" then [] else [Effect.write stdout])

/-- `InteractiveInterpreter.run_command` with the threaded execution
strategy: on any exception from `attempt_exec` (including the timeout),
`send_exception` resets the compiler buffer and writes the traceback,
then `run_command` returns (so the loop goes back to the prompt); on
success, `send_output` runs.  Returns the writes and the buffer state. -/
def runCommandThreaded (commandTimeout duration : Nat)
    (workerResult : Except Unit (Option PyObj)) (workerStdout : String)
    (buf : String) : List Effect × String :=
  match threadedAttemptExec commandTimeout duration workerResult workerStdout with
  | Except.error _ => ([Effect.writeTraceback], "")
  | Except.ok (v, out) => (sendOutput v out, buf)

/-- The default `command_timeout` of `ThreadedInteractiveInterpreter` and
of `start_manhole`. -/
def defaultCommandTimeout : Nat := 5

/-- **C5.** In threaded mode, when the configured timeout (default 5)
elapses before the worker finishes (`commandTimeout < duration`, timeout
nonzero), the await fails with the timeout error, the session writes only
the traceback and resets its buffer (control returns to the prompt), and
the response is completely independent of the worker's eventual value,
exception, and output — they are never delivered to any client. -/
theorem threaded_timeout_discards_result (commandTimeout duration : Nat)
    (workerResult : Except Unit (Option PyObj)) (workerStdout : String)
    (buf : String) (h0 : commandTimeout ≠ 0) (h : commandTimeout < duration) :
    threadedRealExec commandTimeout duration workerResult =
      Except.error ExecFailure.timeoutError ∧
    runCommandThreaded commandTimeout duration workerResult workerStdout buf =
      ([Effect.writeTraceback], "") ∧
    (∀ wr' ws', runCommandThreaded commandTimeout duration wr' ws' buf =
      runCommandThreaded commandTimeout duration workerResult workerStdout buf) ∧
    defaultCommandTimeout = 5 := by
  have hexec : ∀ wr : Except Unit (Option PyObj),
      threadedRealExec commandTimeout duration wr =
        Except.error ExecFailure.timeoutError := by
    intro wr
    simp [threadedRealExec, h0, h]
  have hrun : ∀ (wr : Except Unit (Option PyObj)) (ws : String),
      runCommandThreaded commandTimeout duration wr ws buf =
        ([Effect.writeTraceback], "") := by
    intro wr ws
    simp [runCommandThreaded, threadedAttemptExec, hexec]
  exact ⟨hexec workerResult, hrun workerResult workerStdout,
    fun wr' ws' => by rw [hrun, hrun], rfl⟩

theorem threaded_timeout_discards_result_witness :
    (defaultCommandTimeout ≠ 0 ∧ defaultCommandTimeout < 6) ∧
    (runCommandThreaded defaultCommandTimeout 6
        (Except.ok (some ⟨"42"⟩)) "leaked output" "" =
      ([Effect.writeTraceback], "") ∧
     runCommandThreaded defaultCommandTimeout 6
        (Except.error ()) "" "" =
      runCommandThreaded defaultCommandTimeout 6
        (Except.ok (some ⟨"42"⟩)) "leaked output" "") :=
  ⟨⟨by decide, by decide⟩, by
    have h := threaded_timeout_discards_result defaultCommandTimeout 6
      (Except.ok (some ⟨"42"⟩)) "leaked output" "" (by decide) (by decide)
    exact ⟨h.2.1, h.2.2.1 (Except.error ()) ""⟩⟩

/-! ### C6 -/

/-- A Python dict used as an interpreter namespace, abstracted as a
partial map from identifiers to (ids of) values. -/
def Namespace : Type := String → Option Nat

/-- `d[x] = v` on a dict. -/
def nsUpdate (ns : Namespace) (x : String) (v : Nat) : Namespace :=
  fun y => if y = x then some v else ns y

/-- What a session holds: in shared mode, a reference to the factory's
single dict instance; otherwise its own copy (`dict(self.namespace)`). -/
inductive SessionNs where
  | sharedRef
  | ownCopy (ns : Namespace)

/-- The factory's dict (`self.namespace`) plus the namespaces handed to
the sessions created so far, in creation order. -/
structure ServerState where
  factoryNs : Namespace
  sessions : List SessionNs

/-- `InterpreterFactory.__call__` for one new connection: the interpreter
is built with `namespace=self.namespace if self.shared else
dict(self.namespace)` — the very same instance when shared, a copy when
not. -/
def interpreterFactoryCall (shared : Bool) (s : ServerState) : ServerState :=
  { s with sessions := s.sessions ++
      [if shared then SessionNs.sharedRef else SessionNs.ownCopy s.factoryNs] }

/-- User code in session `i` executes a binding `x = v` against that
session's namespace: through a shared reference it mutates the factory's
single instance, through an own copy it mutates only that copy. -/
def sessionBind (s : ServerState) (i : Nat) (x : String) (v : Nat) :
    ServerState :=
  match s.sessions.get? i with
  | some SessionNs.sharedRef => { s with factoryNs := nsUpdate s.factoryNs x v }
  | some (SessionNs.ownCopy ns) =>
    { s with sessions := s.sessions.set i (SessionNs.ownCopy (nsUpdate ns x v)) }
  | none => s

/-- Name lookup in session `i`'s namespace. -/
def sessionLookup (s : ServerState) (i : Nat) (x : String) : Option Nat :=
  match s.sessions.get? i with
  | some SessionNs.sharedRef => s.factoryNs x
  | some (SessionNs.ownCopy ns) => ns x
  | none => none

/-- **C6.** With the factory seeded with `seed`, create two sessions A
(index 0) and B (index 1) and let A bind a name `x` that the seed does
not define.  In isolated mode (`shared=False`, the default) the binding
is absent from B's namespace; in shared mode (`shared=True`) it is
visible in B's namespace. -/
theorem namespace_isolation_and_sharing (seed : Namespace) (x : String)
    (v : Nat) (hseed : seed x = none) :
    sessionLookup
      (sessionBind
        (interpreterFactoryCall false (interpreterFactoryCall false
          ⟨seed, []⟩)) 0 x v) 1 x = none ∧
    sessionLookup
      (sessionBind
        (interpreterFactoryCall true (interpreterFactoryCall true
          ⟨seed, []⟩)) 0 x v) 1 x = some v := by
  constructor
  · simp [interpreterFactoryCall, sessionBind, sessionLookup, nsUpdate, hseed]
  · simp [interpreterFactoryCall, sessionBind, sessionLookup, nsUpdate]

/-- The empty seed dict. -/
def emptySeed : Namespace := fun _ => none

theorem namespace_isolation_and_sharing_witness :
    (emptySeed "team_binding" = none) ∧
    (sessionLookup
      (sessionBind
        (interpreterFactoryCall false (interpreterFactoryCall false
          ⟨emptySeed, []⟩)) 0 "team_binding" 7) 1 "team_binding" = none ∧
     sessionLookup
      (sessionBind
        (interpreterFactoryCall true (interpreterFactoryCall true
          ⟨emptySeed, []⟩)) 0 "team_binding" 7) 1 "team_binding" = some 7) :=
  ⟨rfl, namespace_isolation_and_sharing emptySeed "team_binding" 7 rfl⟩

/-! ### C7 -/

/-- The ways `handle_one_command` can end one iteration of the main loop
in `InteractiveInterpreter.__call__`: the read raised
`ConnectionResetError`, or some other unexpected exception escaped. -/
inductive CommandLoopOutcome where
  | connectionReset
  | internalError
deriving DecidableEq

/-- What one arm of the `try`/`except` in the `while True:` loop of
`InteractiveInterpreter.__call__` does: on `ConnectionResetError`,
`writer.close()` and `break`; on any other `Exception`,
`traceback.print_exc()` and fall through to the next iteration. -/
structure LoopStepResult where
  writerClosed : Bool
  loopBreaks : Bool
  tracebackLogged : Bool
deriving DecidableEq

/-- The exception handling of the main loop of
`InteractiveInterpreter.__call__` (`aiomanhole/__init__.py`,
lines 185–192). -/
def sessionLoopStep : CommandLoopOutcome → LoopStepResult
  | CommandLoopOutcome.connectionReset =>
    { writerClosed := true, loopBreaks := true, tracebackLogged := false }
  | CommandLoopOutcome.internalError =>
    { writerClosed := false, loopBreaks := false, tracebackLogged := true }

/-- Run the whole `while True:` loop over a sequence of iteration
outcomes: returns how many tracebacks were logged and whether the writer
was closed when the loop ended (the loop only ends on
`ConnectionResetError`; an exhausted outcome list leaves the session
still running with the writer open). -/
def sessionLoop : List CommandLoopOutcome → Nat × Bool
  | [] => (0, false)
  | CommandLoopOutcome.connectionReset :: _ => (0, true)
  | CommandLoopOutcome.internalError :: rest =>
    ((sessionLoop rest).1 + 1, (sessionLoop rest).2)

/-- **C7 counterexample.** On an unexpected internal exception the claim
says the session closes its own connection; the code's `except Exception`
arm only logs the traceback and continues the loop: at the concrete
outcome `internalError` the writer is not closed (even a whole loop run
consisting of that single outcome ends with the writer still open). -/
theorem internal_error_close_counterexample :
    ¬ ((sessionLoopStep CommandLoopOutcome.internalError).writerClosed = true) ∧
    sessionLoop [CommandLoopOutcome.internalError] = (1, false) := by
  decide

/-- **C7 (amended).** If an unexpected internal exception (one not caused
by user code's compile or execution, which are handled further in) is
raised while handling commands, the session logs its traceback and
continues its command loop with the connection left open: the step
neither closes the writer nor breaks the loop, and in a full loop run the
error only increments the logged-traceback count, leaving the final
writer state to the remaining outcomes.  Only this session's own state is
involved; the host process and other sessions are untouched. -/
theorem internal_error_logged_loop_continues :
    sessionLoopStep CommandLoopOutcome.internalError =
      { writerClosed := false, loopBreaks := false, tracebackLogged := true } ∧
    ∀ rest, sessionLoop (CommandLoopOutcome.internalError :: rest) =
      ((sessionLoop rest).1 + 1, (sessionLoop rest).2) :=
  ⟨rfl, fun _ => rfl⟩

end Aiomanhole
